import Mathlib

/-!
Shallow embedding of `src/app.js` (the primary variant of the file: the one
containing the `pendingTransactions` map, which the specification's claims
cite by line number).

The express/axios plumbing is modelled away as follows:
* environment variables become an explicit `Env` record;
* each outbound network interaction (token endpoint, STK push endpoint) is
  an oracle value supplied as an argument, and the number of network calls
  actually performed by a handler is counted explicitly in its outcome;
* JSON values appearing in request bodies are modelled by `JVal`
  (null / integer number / string); JS floats are out of scope, amounts in
  this service are integral;
* `undefined` (an absent JSON field) is modelled by `Option`;
* `moment().format("YYYYMMDDHHmmss")` becomes an explicit `ts : String`
  argument to the push handler.
-/

namespace UnicMpesa

/-- A JSON-ish JavaScript value as it appears in request bodies:
`null`, a (integral) number, or a string. -/
inductive JVal where
  | null
  | num (n : Int)
  | str (s : String)
deriving DecidableEq, Repr

/-- JS truthiness test (negated) for an optional string field:
`!x` is true when the field is `undefined` or the empty string. -/
def jsFalsyStr : Option String → Bool
  | none => true
  | some s => s = ""

/-- JS truthiness test (negated) for an optional `JVal` field:
`!x` is true for `undefined`, `null`, `0` and `""`. -/
def jsFalsy : Option JVal → Bool
  | none => true
  | some .null => true
  | some (.num n) => n = 0
  | some (.str s) => s = ""

/-- Parse a nonempty all-digit character list as a natural number
(accumulator form). -/
def parseNatDigits : List Char → Nat → Option Nat
  | [], acc => some acc
  | c :: rest, acc =>
      if c.isDigit then parseNatDigits rest (acc * 10 + (c.toNat - 48)) else none

/-- JS `Number(s)` for a string, as far as this service exercises it:
the trimmed string; `""` converts to `0`; an optional sign followed by
decimal digits converts to the corresponding integer; anything else is NaN
(`none`).  (JS also accepts floats and hex literals; amounts in this
service are integral so those cases are not modelled.) -/
def parseJsNumber (s : String) : Option Int :=
  let t := (s.data.dropWhile Char.isWhitespace).reverse.dropWhile Char.isWhitespace |>.reverse
  match t with
  | [] => some 0
  | '-' :: rest =>
      if rest = [] then none else (parseNatDigits rest 0).map (fun n => -(n : Int))
  | '+' :: rest =>
      if rest = [] then none else (parseNatDigits rest 0).map (fun n => (n : Int))
  | _ => (parseNatDigits t 0).map (fun n => (n : Int))

/-- JS numeric coercion `Number(x)` of an optional body field;
`none` is NaN (`Number(undefined)` is NaN, `Number(null)` is `0`). -/
def jsToNumberOpt : Option JVal → Option Int
  | none => none
  | some .null => some 0
  | some (.num n) => some n
  | some (.str s) => parseJsNumber s

/-- JS `isNaN(x)` for an optional body field. -/
def isNaNJs (v : Option JVal) : Bool := (jsToNumberOpt v).isNone

/-- JS `x <= 0` under numeric coercion; a NaN comparison is `false`. -/
def jsLeZero (v : Option JVal) : Bool :=
  match jsToNumberOpt v with
  | some n => n ≤ 0
  | none => false

/-! ### Base64 (`Buffer.from(s).toString("base64")`) -/

/-- The base64 alphabet, by sextet value. -/
def b64c (n : Nat) : Char :=
  if n < 26 then Char.ofNat (65 + n)
  else if n < 52 then Char.ofNat (97 + (n - 26))
  else if n < 62 then Char.ofNat (48 + (n - 52))
  else if n = 62 then '+' else '/'

/-- Standard base64 encoding of a byte list, with `=` padding. -/
def base64EncodeBytes : List Nat → List Char
  | [] => []
  | [b1] => [b64c (b1 / 4), b64c (b1 % 4 * 16), '=', '=']
  | [b1, b2] => [b64c (b1 / 4), b64c (b1 % 4 * 16 + b2 / 16), b64c (b2 % 16 * 4), '=']
  | b1 :: b2 :: b3 :: rest =>
      b64c (b1 / 4) :: b64c (b1 % 4 * 16 + b2 / 16) :: b64c (b2 % 16 * 4 + b3 / 64)
        :: b64c (b3 % 64) :: base64EncodeBytes rest

/-- UTF-8 encoding of a single code point. -/
def utf8Encode (c : Nat) : List Nat :=
  if c < 0x80 then [c]
  else if c < 0x800 then [0xC0 + c / 64, 0x80 + c % 64]
  else if c < 0x10000 then [0xE0 + c / 4096, 0x80 + c / 64 % 64, 0x80 + c % 64]
  else [0xF0 + c / 262144, 0x80 + c / 4096 % 64, 0x80 + c / 64 % 64, 0x80 + c % 64]

/-- UTF-8 bytes of a string (`Buffer.from` uses UTF-8). -/
def strBytes (s : String) : List Nat :=
  (s.data.map (fun c => utf8Encode c.toNat)).flatten

/-- The encoding `Buffer.from(s).toString("base64")`. -/
def base64encode (s : String) : String :=
  String.mk (base64EncodeBytes (strBytes s))

/-! ### Environment and access token (`getAccessToken`, `attachAccessToken`) -/

/-- The environment variables the handlers read.  The credentials may be
absent (`process.env.X` is `undefined`); the shortcode/passkey/callback URI
are taken as plain strings (assumed configured). -/
structure Env where
  consumerKey : Option String
  consumerSecret : Option String
  businessShortCode : String
  passkey : String
  callbackUri : String
deriving DecidableEq, Repr

/-- Outcome of the single outbound request to the gateway's token endpoint,
supplied as an oracle: either the `access_token` from the response body, or
a network/HTTP failure. -/
inductive TokenResult where
  | ok (accessToken : String)
  | err
deriving DecidableEq, Repr

/-- The test `!consumer_key || !consumer_secret` in `getAccessToken`. -/
def credsMissing (env : Env) : Bool :=
  jsFalsyStr env.consumerKey || jsFalsyStr env.consumerSecret

/-- Function `getAccessToken()`: throws when credentials are missing (before any
network activity); otherwise performs exactly one GET to the token endpoint
and returns its `access_token`, rethrowing a generic error on failure.
The second component counts the network calls performed. -/
def getAccessToken (env : Env) (oracle : TokenResult) : Except String String × Nat :=
  if credsMissing env then
    (.error "Missing M-Pesa credentials in environment variables", 0)
  else
    match oracle with
    | .ok t => (.ok t, 1)
    | .err => (.error "Failed to get access token", 1)

/-! ### `/stkpush`: validation, request building, handler -/

/-- The JSON body of a `/stkpush` request, as destructured by the code:
`{ phoneNumber, amount, accountReference, transactionDesc }`.  Each field
may be absent.  The phone number is taken as a string (JSON callers send it
as such); the amount may be a number, a string, or null. -/
structure StkPushBody where
  phoneNumber : Option String
  amount : Option JVal
  accountReference : Option String
  transactionDesc : Option String
deriving DecidableEq, Repr

/-- The regex `^254\d{9}$`: exactly `254` followed by exactly nine ASCII
digits. -/
def matchesKenyanPhone (s : String) : Bool :=
  match s.data with
  | '2' :: '5' :: '4' :: rest => rest.length = 9 && rest.all Char.isDigit
  | _ => false

/-- Middleware `validateStkPushRequest`: returns `some msg` when it responds
`400` with `{ error: msg }` (short-circuiting the chain), `none` when it
calls `next()`. -/
def validateStkPushRequest (b : StkPushBody) : Option String :=
  if jsFalsyStr b.phoneNumber || jsFalsy b.amount then
    some "Phone number and payable amount are required"
  else if !matchesKenyanPhone (b.phoneNumber.getD "") then
    some "Invalid phone number format. Use 254XXXXXXXXX"
  else if isNaNJs b.amount || jsLeZero b.amount then
    some "Invalid amount. Must be a positive number"
  else
    none

/-- The gateway's acknowledgment body for an accepted STK push
(`response.data`), keeping the fields the code inspects or returns. -/
structure GatewayData where
  checkoutRequestID : Option String
  merchantRequestID : Option String
deriving DecidableEq, Repr

/-- Outcome of the outbound POST to the STK push endpoint, as an oracle. -/
inductive GatewayResult where
  | ok (data : GatewayData)
  | err
deriving DecidableEq, Repr

/-- The `requestData` object assembled by the `/stkpush` handler. -/
structure StkRequestData where
  businessShortCode : String
  password : String
  timestamp : String
  transactionType : String
  amount : Option JVal
  partyA : Option String
  partyB : String
  phoneNumber : Option String
  callBackURL : String
  accountReference : Option String
  transactionDesc : Option String
deriving DecidableEq, Repr

/-- Assembly of `requestData` in the `/stkpush` handler, for a given
timestamp `ts` (the value of `moment().format("YYYYMMDDHHmmss")`). -/
def buildStkRequest (env : Env) (ts : String) (b : StkPushBody) : StkRequestData :=
  { businessShortCode := env.businessShortCode
    password := base64encode (env.businessShortCode ++ env.passkey ++ ts)
    timestamp := ts
    transactionType := "CustomerPayBillOnline"
    amount := b.amount
    partyA := b.phoneNumber
    partyB := env.businessShortCode
    phoneNumber := b.phoneNumber
    callBackURL := env.callbackUri
    accountReference := b.accountReference
    transactionDesc := b.transactionDesc }

/-- An HTTP response sent by the `/stkpush` route (status plus the JSON
body fields the various branches set; a field the branch does not set is
`none`). -/
structure HttpResponse where
  status : Nat
  success : Option Bool
  message : Option String
  error : Option String
  data : Option GatewayData
deriving DecidableEq, Repr

/-- The stored value of a `pendingTransactions` entry (the shape the
commented-out registration would store; live code never constructs one). -/
structure StoredData where
  user_id : String
  phone_number : String
  amount : JVal
deriving DecidableEq, Repr

/-- The `pendingTransactions` map, as an association list with unique keys
(`Map.get` returns the entry whose key is equal, first match). -/
abbrev Ledger := List (String × StoredData)

/-- Lookup `pendingTransactions.get k`. -/
def ledgerGet : Ledger → String → Option StoredData
  | [], _ => none
  | (k2, v) :: rest, k => if k2 = k then some v else ledgerGet rest k

/-- Containment `pendingTransactions.has k`, for stating claims. -/
def ledgerContains (l : Ledger) (k : String) : Bool :=
  (ledgerGet l k).isSome

/-- Everything observable about one `/stkpush` request: the HTTP response,
the number of outbound network calls performed (token fetch plus gateway
POST), the ledger afterwards, and the request submitted to the gateway
(`none` when the flow failed before the POST). -/
structure StkPushOutcome where
  response : HttpResponse
  networkCalls : Nat
  ledger : Ledger
  submitted : Option StkRequestData
deriving DecidableEq, Repr

/-- The `/stkpush` route: `validateStkPushRequest`, then
`attachAccessToken` (500 `{error}` on `getAccessToken` failure), then the
handler body: build `requestData`, POST it; on gateway failure respond 500
`{success:false, error}`; on success the
`if (response.data.CheckoutRequestID)` block is empty (the registration in
the ledger is commented out in the source), and the route responds 200
`{success:true, message, data}`. -/
def handleStkPush (env : Env) (ledger : Ledger) (ts : String) (b : StkPushBody)
    (tokenOracle : TokenResult) (gatewayOracle : GatewayResult) : StkPushOutcome :=
  match validateStkPushRequest b with
  | some msg =>
      { response := { status := 400, success := none, message := none,
                      error := some msg, data := none }
        networkCalls := 0, ledger := ledger, submitted := none }
  | none =>
      match getAccessToken env tokenOracle with
      | (.error _, n) =>
          { response := { status := 500, success := none, message := none,
                          error := some "Failed to authenticate with M-Pesa API", data := none }
            networkCalls := n, ledger := ledger, submitted := none }
      | (.ok _token, n) =>
          let requestData := buildStkRequest env ts b
          match gatewayOracle with
          | .err =>
              { response := { status := 500, success := some false, message := none,
                              error := some "Failed to process STK push request", data := none }
                networkCalls := n + 1, ledger := ledger, submitted := some requestData }
          | .ok data =>
              { response := { status := 200, success := some true,
                              message := some "STK push sent successfully. Please check your phone.",
                              error := none, data := some data }
                networkCalls := n + 1, ledger := ledger, submitted := some requestData }

/-! ### `/stk_callback`: callback parsing and reconciliation -/

/-- One `{Name, Value}` item of `CallbackMetadata.Item`.  (An item lacking
a `Name` behaves like one whose name matches none of the four scanned
names; the items this gateway sends always carry a `Value`.) -/
structure MetaItem where
  name : String
  value : JVal
deriving DecidableEq, Repr

/-- The value of a present (truthy) `CallbackMetadata` field: either it
carries an `Item` array (the `forEach` scan runs over its items), or it
does not (`Item` absent or not an array, so
`callbackData.CallbackMetadata.Item.forEach` throws a TypeError). -/
inductive CallbackMetadataVal where
  | withItems (items : List MetaItem)
  | noItemArray
deriving DecidableEq, Repr

/-- The `Body.stkCallback` object.  Every field may be absent;
`callbackMetadata = none` is an absent (falsy) `CallbackMetadata`, which
skips the metadata scan entirely. -/
structure StkCallbackData where
  checkoutRequestID : Option String
  merchantRequestID : Option String
  resultCode : Option Int
  resultDesc : Option String
  callbackMetadata : Option CallbackMetadataVal
deriving DecidableEq, Repr

/-- A request delivered to `/stk_callback`, classified by how far the
expression `req.body.Body.stkCallback` gets: `noBody` when `req.body.Body`
is absent (reading `.stkCallback` of `undefined` throws), `noStkCallback`
when `Body` is present but `stkCallback` absent (reading
`.CheckoutRequestID` of `undefined` throws), `withCallback` otherwise. -/
inductive CallbackRequest where
  | noBody
  | noStkCallback
  | withCallback (d : StkCallbackData)
deriving DecidableEq, Repr

/-- The `baseTransaction` record built by the callback handler, after
metadata extraction.  The four metadata fields are JS values whose
defaults are `null, 1, null, null`; the envelope fields are `undefined`
when the callback lacked them. -/
structure Transaction where
  checkoutRequestID : Option String
  merchantRequestID : Option String
  resultCode : Option Int
  resultDesc : Option String
  mpesaReceiptNumber : JVal
  amount : JVal
  transactionDate : JVal
  phoneNumber : JVal
  userId : String
deriving DecidableEq, Repr

/-- The initial `baseTransaction` object literal (before the metadata
scan): receipt/date/phone `null`, amount `1`, hardcoded `userId`. -/
def baseTransaction (d : StkCallbackData) : Transaction :=
  { checkoutRequestID := d.checkoutRequestID
    merchantRequestID := d.merchantRequestID
    resultCode := d.resultCode
    resultDesc := d.resultDesc
    mpesaReceiptNumber := .null
    amount := .num 1
    transactionDate := .null
    phoneNumber := .null
    userId := "686c2e0f0027634a8e93" }

/-- The body of the `CallbackMetadata.Item.forEach` loop: each of the four
name tests is applied to every item, in source order (last write wins). -/
def applyMeta (t : Transaction) (item : MetaItem) : Transaction :=
  let t := if item.name = "Amount" then { t with amount := item.value } else t
  let t := if item.name = "MpesaReceiptNumber" then { t with mpesaReceiptNumber := item.value } else t
  let t := if item.name = "TransactionDate" then { t with transactionDate := item.value } else t
  if item.name = "PhoneNumber" then { t with phoneNumber := item.value } else t

/-- Everything observable about one `/stk_callback` request: the HTTP
status sent, the ledger afterwards, the result of the
`pendingTransactions.get` lookup, the records written to the Persistence
Gateway during the request, and the transaction record as constructed by
the handler (`none` when parsing threw before the `baseTransaction`
literal was built; when the metadata scan throws afterwards, the already
built base record, which never escapes the handler). -/
structure CallbackOutcome where
  status : Nat
  ledger : Ledger
  storedData : Option StoredData
  persisted : List Transaction
  txn : Option Transaction
deriving DecidableEq, Repr

/-- The `/stk_callback` route: parse `req.body.Body.stkCallback` (a missing
envelope throws, caught as a 500); look up the correlation id in
`pendingTransactions` (`get` of `undefined` is `undefined`); build
`baseTransaction`; when `CallbackMetadata` is truthy, run
`CallbackMetadata.Item.forEach` — which throws (caught as a 500) when
`Item` is not an array, and otherwise scans the items.  The
`databases.createDocument` persistence write and the
`pendingTransactions.delete` retirement are both commented out in the
source, so nothing is persisted, the ledger is unchanged, and the route
acknowledges 200 whenever no parse/scan error was thrown. -/
def handleStkCallback (ledger : Ledger) (req : CallbackRequest) : CallbackOutcome :=
  match req with
  | .noBody =>
      { status := 500, ledger := ledger, storedData := none, persisted := [], txn := none }
  | .noStkCallback =>
      { status := 500, ledger := ledger, storedData := none, persisted := [], txn := none }
  | .withCallback d =>
      let storedData := d.checkoutRequestID.bind (ledgerGet ledger)
      match d.callbackMetadata with
      | some (.withItems items) =>
          { status := 200, ledger := ledger, storedData := storedData,
            persisted := [], txn := some (items.foldl applyMeta (baseTransaction d)) }
      | some .noItemArray =>
          { status := 500, ledger := ledger, storedData := storedData,
            persisted := [], txn := some (baseTransaction d) }
      | none =>
          { status := 200, ledger := ledger, storedData := storedData,
            persisted := [], txn := some (baseTransaction d) }

/-! ### Whole-server traces (ledger and persistence over many requests) -/

/-- One inbound request, with the oracles describing how the outside world
answered the outbound calls it made. -/
inductive Event where
  | push (env : Env) (ts : String) (b : StkPushBody)
      (tokenOracle : TokenResult) (gatewayOracle : GatewayResult)
  | callback (req : CallbackRequest)

/-- The mutable state of the process: the `pendingTransactions` map, and
(for observation) every record ever written to the Persistence Gateway. -/
structure ServerState where
  ledger : Ledger
  persisted : List Transaction
deriving DecidableEq, Repr

/-- Handling one request from a given state. -/
def step (s : ServerState) : Event → ServerState
  | .push env ts b tok gw =>
      let o := handleStkPush env s.ledger ts b tok gw
      { ledger := o.ledger, persisted := s.persisted }
  | .callback req =>
      let o := handleStkCallback s.ledger req
      { ledger := o.ledger, persisted := s.persisted ++ o.persisted }

/-- Running the server from its initial state (`new Map()`, nothing
persisted) over a sequence of requests. -/
def run (events : List Event) : ServerState :=
  events.foldl step { ledger := [], persisted := [] }

/-! ### Concrete fixtures used by witnesses and counterexamples -/

/-- A configured environment with credentials present. -/
def envA : Env :=
  { consumerKey := some "ck", consumerSecret := some "cs",
    businessShortCode := "174379", passkey := "pk",
    callbackUri := "https://example.com/stk_callback" }

/-- A valid initiation body. -/
def bodyA : StkPushBody :=
  { phoneNumber := some "254712345678", amount := some (.num 100),
    accountReference := some "Order-1", transactionDesc := some "Payment" }

/-- A gateway acknowledgment containing a correlation id. -/
def gwDataA : GatewayData :=
  { checkoutRequestID := some "ws_CO_191220191020363925",
    merchantRequestID := some "29115-34620561-1" }

/-- A user-cancelled callback (result code 1032) with no metadata. -/
def cbCancelled : StkCallbackData :=
  { checkoutRequestID := some "ws_CO_191220191020363925",
    merchantRequestID := some "29115-34620561-1",
    resultCode := some 1032,
    resultDesc := some "Request cancelled by user",
    callbackMetadata := none }

/-- The metadata list of the specification's success example. -/
def metaA : List MetaItem :=
  [⟨"Amount", .num 500⟩, ⟨"MpesaReceiptNumber", .str "ABC123"⟩,
   ⟨"TransactionDate", .num 20240101120000⟩, ⟨"PhoneNumber", .num 254712345678⟩]

/-- A successful callback carrying `metaA`. -/
def cbSuccess : StkCallbackData :=
  { checkoutRequestID := some "ws_CO_191220191020363925",
    merchantRequestID := some "29115-34620561-1",
    resultCode := some 0,
    resultDesc := some "The service request is processed successfully.",
    callbackMetadata := some (.withItems metaA) }

/-! ### Claim-statement classifiers (from the claims' wording) -/

/-- Phone-number condition of claim C6: the body's phone number does not
match the regex (an absent phone field matches nothing). -/
def stkPhoneInvalid (b : StkPushBody) : Bool :=
  match b.phoneNumber with
  | some s => !matchesKenyanPhone s
  | none => true

/-- Amount condition of claim C6: the body's amount is non-numeric (NaN
under JS coercion, including absent) or non-positive. -/
def stkAmountInvalid (b : StkPushBody) : Bool :=
  match jsToNumberOpt b.amount with
  | some n => n ≤ 0
  | none => true

/-! ### Helper lemmas -/

/-- Passing validation pins down every condition the middleware tests. -/
theorem validate_none_iff (b : StkPushBody) :
    validateStkPushRequest b = none ↔
      jsFalsyStr b.phoneNumber = false ∧ jsFalsy b.amount = false ∧
      matchesKenyanPhone (b.phoneNumber.getD "") = true ∧
      isNaNJs b.amount = false ∧ jsLeZero b.amount = false := by
  constructor
  · intro h
    unfold validateStkPushRequest at h
    split at h
    · cases h
    next h1 =>
      split at h
      · cases h
      next h2 =>
        split at h
        · cases h
        next h3 =>
          simp at h1 h2 h3
          exact ⟨h1.1, h1.2, h2, h3.1, h3.2⟩
  · rintro ⟨h1, h2, h3, h4, h5⟩
    unfold validateStkPushRequest
    simp [h1, h2, h3, h4, h5]

/-- The push route leaves the ledger untouched in every branch. -/
theorem handleStkPush_ledger_eq (env : Env) (ledger : Ledger) (ts : String)
    (b : StkPushBody) (tok : TokenResult) (gw : GatewayResult) :
    (handleStkPush env ledger ts b tok gw).ledger = ledger := by
  unfold handleStkPush
  split
  · rfl
  · split
    · rfl
    · split <;> rfl

/-- The callback route leaves the ledger untouched in every branch. -/
theorem handleStkCallback_ledger_eq (ledger : Ledger) (req : CallbackRequest) :
    (handleStkCallback ledger req).ledger = ledger := by
  cases req with
  | noBody => rfl
  | noStkCallback => rfl
  | withCallback d =>
      cases hmd : d.callbackMetadata with
      | none => simp [handleStkCallback, hmd]
      | some v => cases v <;> simp [handleStkCallback, hmd]

/-- The callback route writes nothing to the Persistence Gateway
(`createDocument` is commented out). -/
theorem handleStkCallback_persisted_eq (ledger : Ledger) (req : CallbackRequest) :
    (handleStkCallback ledger req).persisted = [] := by
  cases req with
  | noBody => rfl
  | noStkCallback => rfl
  | withCallback d =>
      cases hmd : d.callbackMetadata with
      | none => simp [handleStkCallback, hmd]
      | some v => cases v <;> simp [handleStkCallback, hmd]

/-- A ledger lookup in the empty ledger finds nothing. -/
theorem handleStkCallback_empty_storedData (req : CallbackRequest) :
    (handleStkCallback [] req).storedData = none := by
  cases req with
  | noBody => rfl
  | noStkCallback => rfl
  | withCallback d =>
      have hbind : d.checkoutRequestID.bind (ledgerGet []) = none := by
        cases d.checkoutRequestID <;> rfl
      cases hmd : d.callbackMetadata with
      | none => simp [handleStkCallback, hmd, hbind]
      | some v => cases v <;> simp [handleStkCallback, hmd, hbind]

/-- One server step does not change the state at all: the push route never
registers a pending transaction, and the callback route neither retires
ledger entries nor persists records. -/
theorem step_eq (s : ServerState) (e : Event) : step s e = s := by
  cases e with
  | push env ts b tok gw =>
      simp [step, handleStkPush_ledger_eq]
  | callback req =>
      simp [step, handleStkCallback_ledger_eq, handleStkCallback_persisted_eq]

/-- Folding `step` over any event list is the identity. -/
theorem foldl_step_eq (events : List Event) : ∀ s : ServerState, events.foldl step s = s := by
  induction events with
  | nil => intro s; rfl
  | cons e rest ih => intro s; rw [List.foldl_cons, step_eq]; exact ih s

/-- The metadata scan never touches `userId`. -/
theorem applyMeta_userId (t : Transaction) (i : MetaItem) :
    (applyMeta t i).userId = t.userId := by
  simp only [applyMeta]
  split_ifs <;> rfl

/-- Folding the metadata scan never touches `userId`. -/
theorem foldl_applyMeta_userId (items : List MetaItem) :
    ∀ t : Transaction, (items.foldl applyMeta t).userId = t.userId := by
  induction items with
  | nil => intro t; rfl
  | cons i rest ih => intro t; rw [List.foldl_cons, ih, applyMeta_userId]

/-! ### Claims -/

/-- Claim C1, counterexample.  A successful initiation whose gateway
response contains the correlation id `ws_CO_191220191020363925`, run from
the empty ledger, leaves the ledger without an entry for that id: the
registration (`pendingTransactions.set`) is commented out in the source,
so the claim's first half is false. -/
theorem C1_ledger_registration_disabled_cex :
    (handleStkPush envA [] "20240101120000" bodyA (.ok "tok") (.ok gwDataA)).response.status = 200 ∧
    (handleStkPush envA [] "20240101120000" bodyA (.ok "tok") (.ok gwDataA)).response.data = some gwDataA ∧
    gwDataA.checkoutRequestID = some "ws_CO_191220191020363925" ∧
    ledgerContains (handleStkPush envA [] "20240101120000" bodyA (.ok "tok") (.ok gwDataA)).ledger
      "ws_CO_191220191020363925" = false := by
  decide

/-- Claim C1, amended: initiation never registers a pending transaction
(the registration block is commented out), and reconciliation never
retires one (the deletion is commented out): both routes leave the ledger
exactly as it was. -/
theorem C1_ledger_unchanged (env : Env) (ledger : Ledger) (ts : String) (b : StkPushBody)
    (tok : TokenResult) (gw : GatewayResult) (req : CallbackRequest) :
    (handleStkPush env ledger ts b tok gw).ledger = ledger ∧
    (handleStkCallback ledger req).ledger = ledger :=
  ⟨handleStkPush_ledger_eq env ledger ts b tok gw, handleStkCallback_ledger_eq ledger req⟩

/-- Claim C2, counterexample.  There is no token cache in the code:
`getAccessToken` takes no cached state at all, and even a call made right
after a previous call successfully returned a token performs one network
request to the token endpoint, not zero. -/
theorem C2_no_token_cache_cex :
    (getAccessToken envA (.ok "cachedToken")).1 = .ok "cachedToken" ∧
    (getAccessToken envA (.ok "cachedToken")).2 = 1 ∧ (1 : Nat) ≠ 0 :=
  ⟨rfl, rfl, by decide⟩

/-- Claim C2, amended: `getAccessToken` is uncached; every call with
credentials present performs exactly one token-endpoint request. -/
theorem C2_uncached_always_fetches (env : Env) (o : TokenResult)
    (h : credsMissing env = false) :
    (getAccessToken env o).2 = 1 := by
  cases o <;> simp [getAccessToken, h]

/-- Witness for C2 at a concrete environment with credentials present. -/
theorem C2_uncached_always_fetches_witness :
    credsMissing envA = false ∧ (getAccessToken envA (.ok "t1")).2 = 1 :=
  ⟨by decide, C2_uncached_always_fetches envA (.ok "t1") (by decide)⟩

/-- Claim C3, counterexample.  For the user-cancelled callback (result
code 1032, no metadata) the constructed record's `amount` is the hardcoded
default `1`, not `null` as the claim states. -/
theorem C3_amount_default_one_cex :
    cbCancelled.resultCode = some 1032 ∧ cbCancelled.callbackMetadata = none ∧
    (handleStkCallback [] (.withCallback cbCancelled)).txn.map Transaction.amount
      = some (.num 1) ∧
    JVal.num 1 ≠ JVal.null := by
  decide

/-- Claim C3, amended: for a callback with no metadata list the record
defaults are `receiptNumber = null`, `transactionDate = null`,
`phoneNumber = null` but `amount = 1` (a hardcoded default, not null), and
the result description is the callback's `ResultDesc` verbatim. -/
theorem C3_no_metadata_defaults (ledger : Ledger) (d : StkCallbackData)
    (h : d.callbackMetadata = none) :
    (handleStkCallback ledger (.withCallback d)).txn.map Transaction.amount = some (.num 1) ∧
    (handleStkCallback ledger (.withCallback d)).txn.map Transaction.mpesaReceiptNumber = some .null ∧
    (handleStkCallback ledger (.withCallback d)).txn.map Transaction.transactionDate = some .null ∧
    (handleStkCallback ledger (.withCallback d)).txn.map Transaction.phoneNumber = some .null ∧
    (handleStkCallback ledger (.withCallback d)).txn.map Transaction.resultDesc = some d.resultDesc := by
  simp [handleStkCallback, h, baseTransaction]

/-- Witness for C3 at the concrete user-cancelled callback. -/
theorem C3_no_metadata_defaults_witness :
    cbCancelled.callbackMetadata = none ∧
    ((handleStkCallback [] (.withCallback cbCancelled)).txn.map Transaction.amount = some (.num 1) ∧
     (handleStkCallback [] (.withCallback cbCancelled)).txn.map Transaction.mpesaReceiptNumber = some .null ∧
     (handleStkCallback [] (.withCallback cbCancelled)).txn.map Transaction.transactionDate = some .null ∧
     (handleStkCallback [] (.withCallback cbCancelled)).txn.map Transaction.phoneNumber = some .null ∧
     (handleStkCallback [] (.withCallback cbCancelled)).txn.map Transaction.resultDesc
        = some cbCancelled.resultDesc) :=
  ⟨rfl, C3_no_metadata_defaults [] cbCancelled rfl⟩

/-- Claim C4, counterexample.  A callback arriving after a successful
initiation for the same correlation id finds no ledger entry (the
registration was never performed) and writes no record to the Persistence
Gateway (the `createDocument` call is commented out), so neither the
"persisted record" half nor the "one ledger hit" half of the claim holds. -/
theorem C4_no_persistence_write_cex :
    cbSuccess.checkoutRequestID = gwDataA.checkoutRequestID ∧
    (handleStkCallback (handleStkPush envA [] "20240101120000" bodyA (.ok "tok") (.ok gwDataA)).ledger
        (.withCallback cbSuccess)).storedData = none ∧
    (handleStkCallback (handleStkPush envA [] "20240101120000" bodyA (.ok "tok") (.ok gwDataA)).ledger
        (.withCallback cbSuccess)).persisted = [] := by
  decide

/-- Claim C4, amended: in every reachable server state the ledger is empty
and nothing has ever been written to the Persistence Gateway; consequently
every callback (a second one for a repeated correlation id included) takes
the `NotFound` path, and no callback produces a persisted record. -/
theorem C4_reachable_ledger_empty_no_writes (events : List Event) (req : CallbackRequest) :
    (run events).ledger = [] ∧ (run events).persisted = [] ∧
    (handleStkCallback (run events).ledger req).storedData = none ∧
    (handleStkCallback (run events).ledger req).persisted = [] := by
  have hrun : run events = { ledger := [], persisted := [] } := foldl_step_eq events _
  rw [hrun]
  exact ⟨rfl, rfl, handleStkCallback_empty_storedData req, handleStkCallback_persisted_eq [] req⟩

/-- Claim C6, confirmed: an initiation whose phone number fails the regex,
or whose amount is non-numeric or non-positive, is rejected 400 by the
validation middleware before `attachAccessToken` runs: zero network calls,
nothing submitted to the gateway. -/
theorem C6_validation_rejects_before_network (env : Env) (ledger : Ledger) (ts : String)
    (b : StkPushBody) (tok : TokenResult) (gw : GatewayResult)
    (h : stkPhoneInvalid b || stkAmountInvalid b) :
    (handleStkPush env ledger ts b tok gw).response.status = 400 ∧
    (handleStkPush env ledger ts b tok gw).networkCalls = 0 ∧
    (handleStkPush env ledger ts b tok gw).submitted = none := by
  have hv : validateStkPushRequest b ≠ none := by
    intro hnone
    rcases (validate_none_iff b).1 hnone with ⟨hp, _, hm, hnan, hle⟩
    rw [Bool.or_eq_true] at h
    rcases h with h | h
    · unfold stkPhoneInvalid at h
      cases hps : b.phoneNumber with
      | none => rw [hps] at hp; simp [jsFalsyStr] at hp
      | some s =>
          rw [hps] at h hm
          simp at h hm
          rw [hm] at h
          cases h
    · unfold stkAmountInvalid at h
      unfold isNaNJs at hnan
      unfold jsLeZero at hle
      cases hn : jsToNumberOpt b.amount with
      | none => rw [hn] at hnan; simp at hnan
      | some n =>
          rw [hn] at h hle
          simp at h hle
          omega
  cases hval : validateStkPushRequest b with
  | none => exact absurd hval hv
  | some msg => simp [handleStkPush, hval]

/-- A body with a malformed phone number, for the C6 witness. -/
def bodyBadPhone : StkPushBody :=
  { phoneNumber := some "0712345678", amount := some (.num 100),
    accountReference := none, transactionDesc := none }

/-- Witness for C6 at a concrete invalid phone number. -/
theorem C6_validation_rejects_before_network_witness :
    (stkPhoneInvalid bodyBadPhone || stkAmountInvalid bodyBadPhone) = true ∧
    ((handleStkPush envA [] "20240101120000" bodyBadPhone .err .err).response.status = 400 ∧
     (handleStkPush envA [] "20240101120000" bodyBadPhone .err .err).networkCalls = 0 ∧
     (handleStkPush envA [] "20240101120000" bodyBadPhone .err .err).submitted = none) :=
  ⟨by decide, C6_validation_rejects_before_network envA [] "20240101120000" bodyBadPhone .err .err
      (by decide)⟩

/-- Claim C7, confirmed: a successful callback carrying the four standard
metadata items yields a record with the corresponding amount, receipt
number, transaction date and phone number. -/
theorem C7_success_metadata_extraction (ledger : Ledger) (d : StkCallbackData)
    (_h0 : d.resultCode = some 0) (hm : d.callbackMetadata = some (.withItems metaA)) :
    (handleStkCallback ledger (.withCallback d)).txn.map Transaction.amount = some (.num 500) ∧
    (handleStkCallback ledger (.withCallback d)).txn.map Transaction.mpesaReceiptNumber
      = some (.str "ABC123") ∧
    (handleStkCallback ledger (.withCallback d)).txn.map Transaction.transactionDate
      = some (.num 20240101120000) ∧
    (handleStkCallback ledger (.withCallback d)).txn.map Transaction.phoneNumber
      = some (.num 254712345678) := by
  simp [handleStkCallback, hm, metaA, applyMeta, baseTransaction]

/-- Witness for C7 at the concrete successful callback. -/
theorem C7_success_metadata_extraction_witness :
    cbSuccess.resultCode = some 0 ∧ cbSuccess.callbackMetadata = some (.withItems metaA) ∧
    ((handleStkCallback [] (.withCallback cbSuccess)).txn.map Transaction.amount = some (.num 500) ∧
     (handleStkCallback [] (.withCallback cbSuccess)).txn.map Transaction.mpesaReceiptNumber
        = some (.str "ABC123") ∧
     (handleStkCallback [] (.withCallback cbSuccess)).txn.map Transaction.transactionDate
        = some (.num 20240101120000) ∧
     (handleStkCallback [] (.withCallback cbSuccess)).txn.map Transaction.phoneNumber
        = some (.num 254712345678)) :=
  ⟨rfl, rfl, C7_success_metadata_extraction [] cbSuccess rfl rfl⟩

/-- Claim C8, confirmed: whenever the push handler submits a request to
the gateway, that request's `Password` is the base64 of shortcode ++
passkey ++ the very timestamp carried in its `Timestamp` field. -/
theorem C8_password_roundtrip (env : Env) (ledger : Ledger) (ts : String) (b : StkPushBody)
    (tok : TokenResult) (gw : GatewayResult) (r : StkRequestData)
    (h : (handleStkPush env ledger ts b tok gw).submitted = some r) :
    r.password = base64encode (env.businessShortCode ++ env.passkey ++ r.timestamp) := by
  unfold handleStkPush at h
  split at h
  · cases h
  · split at h
    · cases h
    · split at h <;>
        (simp at h; subst h; rfl)

/-- Witness for C8 at a concrete valid initiation. -/
theorem C8_password_roundtrip_witness :
    (handleStkPush envA [] "20240101120000" bodyA (.ok "tok") (.ok gwDataA)).submitted
      = some (buildStkRequest envA "20240101120000" bodyA) ∧
    (buildStkRequest envA "20240101120000" bodyA).password
      = base64encode (envA.businessShortCode ++ envA.passkey
          ++ (buildStkRequest envA "20240101120000" bodyA).timestamp) :=
  ⟨rfl, C8_password_roundtrip envA [] "20240101120000" bodyA (.ok "tok") (.ok gwDataA) _ rfl⟩

/-- Claim C9, counterexample.  On authentication failure the route answers
500 with body `{error}` only: the `success` field is not set, so the
claimed `{success: false, error}` shape is wrong for that branch. -/
theorem C9_auth_failure_body_cex :
    (handleStkPush envA [] "20240101120000" bodyA .err .err).response.status = 500 ∧
    (handleStkPush envA [] "20240101120000" bodyA .err .err).response.success = none ∧
    (handleStkPush envA [] "20240101120000" bodyA .err .err).response.error
      = some "Failed to authenticate with M-Pesa API" := by
  decide

/-- Claim C9, amended: 200 `{success: true, message, data}` on successful
gateway submission, 400 `{error}` on validation failure, 500 `{error}` (no
`success` field) on authentication failure, and 500
`{success: false, error}` on gateway failure. -/
theorem C9_response_shapes (env : Env) (ledger : Ledger) (ts : String) (b : StkPushBody)
    (tok : TokenResult) (gw : GatewayResult) :
    (∀ msg, validateStkPushRequest b = some msg →
      (handleStkPush env ledger ts b tok gw).response
        = { status := 400, success := none, message := none, error := some msg, data := none }) ∧
    (∀ e n, validateStkPushRequest b = none → getAccessToken env tok = (.error e, n) →
      (handleStkPush env ledger ts b tok gw).response
        = { status := 500, success := none, message := none,
            error := some "Failed to authenticate with M-Pesa API", data := none }) ∧
    (∀ t n, validateStkPushRequest b = none → getAccessToken env tok = (.ok t, n) → gw = .err →
      (handleStkPush env ledger ts b tok gw).response
        = { status := 500, success := some false, message := none,
            error := some "Failed to process STK push request", data := none }) ∧
    (∀ t n d, validateStkPushRequest b = none → getAccessToken env tok = (.ok t, n) → gw = .ok d →
      (handleStkPush env ledger ts b tok gw).response
        = { status := 200, success := some true,
            message := some "STK push sent successfully. Please check your phone.",
            error := none, data := some d }) := by
  refine ⟨?_, ?_, ?_, ?_⟩
  · intro msg hmsg
    simp [handleStkPush, hmsg]
  · intro e n hval hget
    simp [handleStkPush, hval, hget]
  · intro t n hval hget hgw
    simp [handleStkPush, hval, hget, hgw]
  · intro t n d hval hget hgw
    simp [handleStkPush, hval, hget, hgw]

/-- Witness for C9 at a concrete validation failure. -/
theorem C9_response_shapes_witness :
    validateStkPushRequest bodyBadPhone = some "Invalid phone number format. Use 254XXXXXXXXX" ∧
    (handleStkPush envA [] "20240101120000" bodyBadPhone .err .err).response
      = { status := 400, success := none, message := none,
          error := some "Invalid phone number format. Use 254XXXXXXXXX", data := none } :=
  ⟨by decide, (C9_response_shapes envA [] "20240101120000" bodyBadPhone .err .err).1
      "Invalid phone number format. Use 254XXXXXXXXX" (by decide)⟩

/-- Claim C10, confirmed: every transaction record constructed by the
callback handler carries the hardcoded `userId`, whatever the callback's
content and whether or not a ledger entry exists. -/
theorem C10_userId_always_constant (ledger : Ledger) (d : StkCallbackData) :
    (handleStkCallback ledger (.withCallback d)).txn.map Transaction.userId
      = some "686c2e0f0027634a8e93" := by
  cases hmd : d.callbackMetadata with
  | none => simp [handleStkCallback, hmd, baseTransaction]
  | some v =>
      cases v with
      | withItems items =>
          simp [handleStkCallback, hmd, foldl_applyMeta_userId, baseTransaction]
      | noItemArray => simp [handleStkCallback, hmd, baseTransaction]

end UnicMpesa
